import Mathlib

/-!
Verification of the pipeline graph model of cebes-python
(`pycebes/core/stages.py` and `pycebes/core/pipeline.py`).

The Python code is shallowly embedded: pure attribute lookups become Lean
functions, raising an exception becomes returning `Except.error`, and the
CPython object identity of `Stage` objects is modelled by a numeric id.
The process-wide slot registry (`Stage.SLOTS`) is passed explicitly as a
value, and the read-only heap of stage objects is a total function from
ids to stage objects.

Two collaborators of the embedded code are not part of the sources and are
therefore parameters of the model (see `Ctx` and the `decode` arguments):
the value serializer `pycebes.internal.serializer` and the session-backed
result decoder used by `MessageType.from_json`.
-/

namespace Cebes

/-- The six wire tags of `MessageType` (`stages.py` lines 34-39):
`ValueDef`, `StageOutputDef`, `DataframeMessageDef`, `SampleMessageDef`,
`ModelMessageDef`, `ColumnDef`. -/
inductive MsgKind where
  | valueDef
  | stageOutputDef
  | dataframeDef
  | sampleDef
  | modelDef
  | columnDef
deriving DecidableEq

/-- `MessageType` (`stages.py`): a wire kind plus an optional value subtype
used only as an encoding hint for `ValueDef` payloads. -/
structure MessageType where
  msg_type : MsgKind
  value_type : Option String := Option.none
deriving DecidableEq

/-- The `_Slot` namedtuple (`stages.py` line 30): class-level slot metadata. -/
structure Slot where
  name : String
  message_type : MessageType
  is_input : Bool
  server_name : String
deriving DecidableEq

/-- A `SlotDescriptor` (`stages.py`): identifies slot `name` of the stage
object whose CPython identity is `parent`. -/
structure SlotDesc where
  parent : Nat
  name : String
  is_input : Bool
deriving DecidableEq

/-- The Python values that can be bound to slots or fed to `run`, as far as
the claims need them.  `dataframe`/`sample` are the opaque remote handles
(carrying their id), `column` is the opaque Column handle with its JSON
payload (its class lives in `column.py`, outside the embedded core).
Python sequence/mapping/float/bool values are not used by any claim and are
omitted from the value universe. -/
inductive PyVal where
  | none
  | int (n : Int)
  | str (s : String)
  | dataframe (id : String)
  | sample (id : String)
  | column (payload : String)
  | slotDesc (d : SlotDesc)
deriving DecidableEq

/-- A stage object: CPython identity, class name, the MRO of its class
(class names, the class itself first, as returned by `cls.mro()`), and the
`_slot_values` dict (insertion-ordered association list). -/
structure StageObj where
  id : Nat
  className : String
  mro : List String
  slot_values : List (String × PyVal)

/-- The process-wide `Stage.SLOTS` registry: one bucket of `_Slot` records
per declaring class name. -/
abbrev Registry := List (String × List Slot)

/-- JSON values produced by the value serializer (opaque to the claims). -/
inductive JVal where
  | null
  | jstr (s : String)
  | jnum (n : Int)
  | jarr (xs : List JVal)

/-- The evaluation context of the embedded code: the slot registry, the
read-only heap resolving stage identities, and the value serializer.
The serializer models `pycebes.internal.serializer.to_json`, which is
imported by `stages.py` but absent from the sources; the spec leaves the
concrete Value encoding unspecified, so it is kept abstract. -/
structure Ctx where
  REG : Registry
  env : Nat → StageObj
  ser : PyVal → Option String → JVal

/-- Modelled from the spec: `pycebes.internal.helpers.require` is imported
throughout `pipeline.py` and `stages.py` but `internal/helpers.py` is not
among the sources.  Per spec section 7, validation failures are raised
synchronously at the call that caused them, so `require cond msg` raises
(returns `Except.error msg`) exactly when `cond` is false. -/
def require (cond : Bool) (msg : String) : Except String Unit :=
  if cond then .ok () else .error msg

/-- Bucket lookup `cls.SLOTS.get(className, [])`. -/
def bucket (REG : Registry) (cn : String) : List Slot :=
  match REG.find? (fun p => p.1 == cn) with
  | some p => p.2
  | Option.none => []

/-- `_get_slots` (`stages.py` lines 226-236): walk the MRO in order and
concatenate each ancestor's bucket, filtered by direction. -/
def get_slots (REG : Registry) : List String → Bool → List Slot
  | [], _ => []
  | cn :: rest, isIn =>
    (bucket REG cn).filter (fun s => s.is_input == isIn) ++ get_slots REG rest isIn

/-- Append a slot to the bucket of class `cn` (the bucket is assumed
present, as `_add_slot` creates it first). -/
def bucketAppend (REG : Registry) (cn : String) (s : Slot) : Registry :=
  REG.map (fun p => if p.1 == cn then (p.1, p.2 ++ [s]) else p)

/-- `_add_slot` (`stages.py` lines 239-248): ensure the declaring class's
bucket exists, build the `_Slot`, raise `ValueError` if a slot of that name
is already visible to the class in the same direction (own declarations
plus everything inherited through the MRO), otherwise append it. -/
def add_slot (REG : Registry) (className : String) (mro : List String)
    (name : String) (message_type : MessageType) (server_name : Option String)
    (isIn : Bool) : Except String Registry :=
  let REG1 := if REG.any (fun p => p.1 == className) then REG
              else REG ++ [(className, [])]
  let s : Slot := ⟨name, message_type, isIn, server_name.getD name⟩
  if ((get_slots REG1 mro isIn).find? (fun p => p.name == s.name)).isSome then
    .error ("Duplicated slot named " ++ s.name ++ " in class " ++ className)
  else
    .ok (bucketAppend REG1 className s)

/-- `Stage.slot` (`stages.py` lines 316-323): look the name up in the
merged, direction-filtered registry view of the object's class. -/
def StageObj.slot (REG : Registry) (st : StageObj) (slot_name : String)
    (isIn : Bool) : Except String Slot :=
  match (get_slots REG st.mro isIn).find? (fun s => s.name == slot_name) with
  | some s => .ok s
  | Option.none =>
    .error ("Slot name " ++ slot_name ++ " not found in class " ++ st.className)

/-- `self._slot_values.get(name, None)` on a stage object. -/
def StageObj.get_input_val (st : StageObj) (name : String) : PyVal :=
  match st.slot_values.find? (fun p => p.1 == name) with
  | some p => p.2
  | Option.none => .none

/-- `Stage.get_name` (`stages.py` lines 346-349): the value of the reserved
`name` input slot, `None` when unset. -/
def StageObj.get_name (st : StageObj) : PyVal :=
  st.get_input_val "name"

/-- Python dict assignment `d[k] = v`: update in place when the key exists,
append otherwise. -/
def dictSet (d : List (String × PyVal)) (k : String) (v : PyVal) :
    List (String × PyVal) :=
  if d.any (fun p => p.1 == k) then
    d.map (fun p => if p.1 == k then (k, v) else p)
  else d ++ [(k, v)]

/-- `SlotDescriptor.message_type` (`stages.py` lines 204-211): resolved by
looking up the slot in the parent stage's class. -/
def SlotDesc.message_type (ctx : Ctx) (d : SlotDesc) : Except String MessageType :=
  ((ctx.env d.parent).slot ctx.REG d.name d.is_input).map (fun s => s.message_type)

/-- `SlotDescriptor.server_name` (`stages.py` lines 189-192). -/
def SlotDesc.server_name (ctx : Ctx) (d : SlotDesc) : Except String String :=
  ((ctx.env d.parent).slot ctx.REG d.name d.is_input).map (fun s => s.server_name)

/-- Python `'{}'.format(v)` for the values a stage name can hold. -/
def pyFormat : PyVal → String
  | .none => "None"
  | .str s => s
  | .int n => toString n
  | _ => "value"

/-- `SlotDescriptor.full_server_name` (`stages.py` lines 199-202):
`<parent name>:<server name>`. -/
def SlotDesc.full_server_name (ctx : Ctx) (d : SlotDesc) : Except String String :=
  (d.server_name ctx).map
    (fun sn => pyFormat ((ctx.env d.parent).get_name) ++ ":" ++ sn)

/-- The wire form of a `SlotDescriptor` (`stages.py` lines 213-218):
the dict with keys `stageName` (the parent's *current* name value) and
`outputName` (the slot's server name). -/
structure WireSlotKey where
  stageName : PyVal
  outputName : String
deriving DecidableEq

/-- `SlotDescriptor.to_json` (`stages.py` lines 213-218). -/
def SlotDesc.to_json (ctx : Ctx) (d : SlotDesc) : Except String WireSlotKey :=
  (d.server_name ctx).map
    (fun sn => ⟨(ctx.env d.parent).get_input_val "name", sn⟩)

/-- `MessageType.is_valid` (`stages.py` lines 51-77).  `None` is accepted
for every kind.  The `_types` table covers the Value, Dataframe, Sample and
Column kinds: for a `SlotDescriptor` value the descriptor's own declared
kind must equal the expected kind, otherwise a plain `isinstance` check is
performed.  The Model kind is not in the table and raises
`NotImplementedError`; the StageOutputReference kind accepts exactly
`SlotDescriptor` values. -/
def MessageType.is_valid (ctx : Ctx) (mt : MessageType) (value : PyVal) :
    Except String Bool :=
  if value = PyVal.none then .ok true
  else
    match mt.msg_type with
    | .valueDef =>
      match value with
      | .slotDesc d => (d.message_type ctx).map (fun m => m.msg_type == .valueDef)
      | .int _ => .ok true
      | .str _ => .ok true
      | _ => .ok false
    | .dataframeDef =>
      match value with
      | .slotDesc d => (d.message_type ctx).map (fun m => m.msg_type == .dataframeDef)
      | .dataframe _ => .ok true
      | _ => .ok false
    | .sampleDef =>
      match value with
      | .slotDesc d => (d.message_type ctx).map (fun m => m.msg_type == .sampleDef)
      | .sample _ => .ok true
      | _ => .ok false
    | .columnDef =>
      match value with
      | .slotDesc d => (d.message_type ctx).map (fun m => m.msg_type == .columnDef)
      | .column _ => .ok true
      | _ => .ok false
    | .modelDef => .error "NotImplementedError"
    | .stageOutputDef =>
      match value with
      | .slotDesc _ => .ok true
      | _ => .ok false

/-- The payload half of a wire message `[kindTag, payload]`. -/
inductive JPayload where
  | null
  | key (k : WireSlotKey)
  | dfId (id : String)
  | value (j : JVal)
  | column (payload : String)

/-- A wire message: the pair `[kindTag, payload]` returned by
`MessageType.to_json`. -/
structure WireMsg where
  tag : MsgKind
  payload : JPayload

/-- `MessageType.to_json` (`stages.py` lines 79-110): check validity, then
encode.  A `SlotDescriptor` value is re-tagged `StageOutputDef` on the wire
(after requiring its declared kind to equal the slot's kind); otherwise the
payload is produced per kind.  The Sample and Model branches raise
`NotImplementedError`; the non-descriptor StageOutput branch is unreachable
because `is_valid` already rejected such values. -/
def MessageType.to_json (ctx : Ctx) (mt : MessageType) (value : PyVal) :
    Except String WireMsg := do
  let valid <- mt.is_valid ctx value
  let _ <- require valid "Invalid value for message type"
  if value = PyVal.none then
    .ok ⟨mt.msg_type, .null⟩
  else
    match value with
    | .slotDesc d => do
      let dmt <- d.message_type ctx
      let _ <- require (dmt.msg_type == mt.msg_type)
        "Incompatible message type between input slot and output slot"
      let k <- d.to_json ctx
      .ok ⟨.stageOutputDef, .key k⟩
    | v =>
      match mt.msg_type with
      | .valueDef => .ok ⟨.valueDef, .value (ctx.ser v mt.value_type)⟩
      | .stageOutputDef => .error "unreachable: is_valid rejected the value"
      | .dataframeDef =>
        match v with
        | .dataframe i => .ok ⟨.dataframeDef, .dfId i⟩
        | _ => .error "unreachable: is_valid rejected the value"
      | .sampleDef => .error "NotImplementedError"
      | .modelDef => .error "NotImplementedError"
      | .columnDef =>
        match v with
        | .column p => .ok ⟨.columnDef, .column p⟩
        | _ => .error "unreachable: is_valid rejected the value"

/-- `Stage.set_input` (`stages.py` lines 351-371).  The first `require`
checks that the descriptor belongs to this very object and is an input;
after it passes, `slot_desc.parent is self`, so the descriptor's
`message_type` resolves through this object.  For a `SlotDescriptor` value
the check `(not value.is_input) and value.message_type.msg_type == ...`
is modelled with Python's short-circuit evaluation (the message types are
only looked up when `value.is_input` is false). -/
def StageObj.set_input (ctx : Ctx) (st : StageObj) (d : SlotDesc) (value : PyVal) :
    Except String StageObj := do
  let _ <- require (d.parent == st.id && d.is_input)
    "Not a slot descriptor or it does not belong to this instance"
  match value with
  | .slotDesc v => do
    let cond <-
      if v.is_input then pure false
      else do
        let vmt <- v.message_type ctx
        let dmt <- (st.slot ctx.REG d.name d.is_input).map (fun s => s.message_type)
        pure (vmt.msg_type == dmt.msg_type)
    let _ <- require cond
      "Slot is not an output or of incompatible type for input slot"
    .ok { st with slot_values := dictSet st.slot_values d.name value }
  | v => do
    let dmt <- (st.slot ctx.REG d.name d.is_input).map (fun s => s.message_type)
    let ok <- dmt.is_valid ctx v
    let _ <- require ok "Invalid type of value for slot"
    .ok { st with slot_values := dictSet st.slot_values d.name v }

/-- The wire form of a stage (`Stage.to_json`, `stages.py` lines 386-402).
The `outputs` entry is always the empty dict and is omitted here. -/
structure StageJson where
  name : PyVal
  stageClass : String
  inputs : List (String × WireMsg)

/-- The loop of `Stage.to_json` over the input slots: the reserved `name`
slot is skipped, slots whose bound value is `None` (or unset) are omitted,
and every other slot contributes `(server_name, encoded value)`. -/
def stageInputsJson (ctx : Ctx) (st : StageObj) : List Slot →
    Except String (List (String × WireMsg))
  | [] => .ok []
  | s :: rest =>
    if s.name == "name" then stageInputsJson ctx st rest
    else
      match st.get_input_val s.name with
      | .none => stageInputsJson ctx st rest
      | v => do
        let m <- s.message_type.to_json ctx v
        let restJ <- stageInputsJson ctx st rest
        .ok ((s.server_name, m) :: restJ)

/-- `Stage.to_json` (`stages.py` lines 386-402). -/
def StageObj.to_json (ctx : Ctx) (st : StageObj) : Except String StageJson := do
  let inputs <- stageInputsJson ctx st (get_slots ctx.REG st.mro true)
  .ok ⟨st.get_input_val "name", st.className, inputs⟩

/-!
Pipeline (`pipeline.py`).  `Pipeline._stages` is the insertion-ordered list
of stage objects.  `Pipeline.__contains__` and `__getitem__` compare
`s.name == item`, where `Stage.name` is the *property* installed by the
`@input_slot('name', ...)` decorator (`stages.py` lines 250-260): it
returns the memoized name `SlotDescriptor` of the stage object, not the
stage's name string.  `SlotDescriptor` defines no `__eq__`, so Python falls
back to object identity: two name descriptors are equal exactly when they
belong to the same stage object, and a name descriptor is never equal to a
string.  The two functions below embed those Python `==` outcomes.
-/

/-- Python `==` between the name `SlotDescriptor`s of the stages with
identities `a` and `b`: each stage object memoizes exactly one name
descriptor (`Stage.__init__`, `stages.py` line 306), so default object
identity makes the comparison true exactly when `a` and `b` are the same
object. -/
def pyEqNameDescDesc (a b : Nat) : Bool := a == b

/-- Python `==` between a stage's name `SlotDescriptor` and a string:
neither type's `__eq__` recognises the other, so the comparison always
falls back to identity and is `False`. -/
def pyEqNameDescStr (_ : Nat) (_ : String) : Bool := false

/-- The argument of `Pipeline.__contains__`: a stage object or a name
string (anything else is rejected by the `require`). -/
inductive ContainsArg where
  | stage (sid : Nat)
  | name (n : String)
  | other (r : String)

/-- `next((s for s in self._stages if s.name == item_name), None) is not None`
for a string `item_name` (`pipeline.py` line 95). -/
def containsNameStr (stages : List StageObj) (n : String) : Bool :=
  stages.any (fun s => pyEqNameDescStr s.id n)

/-- `Pipeline.__contains__` (`pipeline.py` lines 83-95). -/
def Pipeline.containsArg (stages : List StageObj) (item : ContainsArg) :
    Except String Bool :=
  match item with
  | .stage sid => .ok (stages.any (fun s => pyEqNameDescDesc s.id sid))
  | .name n => .ok (containsNameStr stages n)
  | .other r => .error ("Only support stage object or a string, got " ++ r)

/-- `Pipeline.__getitem__` (`pipeline.py` lines 77-81) for a string key:
`next(s for s in self._stages if s.name == item)`, raising `KeyError` when
the generator is exhausted. -/
def Pipeline.getitem (stages : List StageObj) (item : String) :
    Except String StageObj :=
  match stages.find? (fun s => pyEqNameDescStr s.id item) with
  | some s => .ok s
  | Option.none => .error ("Stage not found: " ++ item)

/-- Python `str.lower()` for the ASCII class names used by `Pipeline.add`. -/
def strLower (s : String) : String := String.mk (s.data.map Char.toLower)

/-- The `while self.__contains__(new_name)` loop of `Pipeline.add`
(`pipeline.py` lines 116-120), searching for the first free index starting
at 0.  The Python loop terminates whenever some candidate name is free; the
fuel `stages.length + 1` suffices because at most `stages.length` names are
taken (and `containsNameStr` is in fact constantly false). -/
def autoNameFrom (stages : List StageObj) (tmpl : String) :
    Nat → Nat → String
  | 0, idx => tmpl ++ "_" ++ toString idx
  | fuel + 1, idx =>
    let nm := tmpl ++ "_" ++ toString idx
    if containsNameStr stages nm then autoNameFrom stages tmpl fuel (idx + 1)
    else nm

/-- `Pipeline.add` (`pipeline.py` lines 104-127).  A stage already present
(list membership uses `==`, which is object identity for stages) is a
no-op.  An unnamed stage receives `<lowercased class>_<idx>` where `idx`
comes from the `__contains__` loop, assigned through `set_name` (i.e.
`set_input` on the name slot).  An explicitly named stage is rejected with
`ValueError` when another stage already has equal `get_name()`. -/
def Pipeline.addStage (ctx : Ctx) (stages : List StageObj) (st : StageObj) :
    Except String (List StageObj × StageObj) :=
  if stages.any (fun s => s.id == st.id) then .ok (stages, st)
  else
    match st.get_name with
    | .none => do
      let tmpl := strLower st.className
      let nm := autoNameFrom stages tmpl (stages.length + 1) 0
      let st1 <- st.set_input ctx ⟨st.id, "name", true⟩ (.str nm)
      .ok (stages ++ [st1], st1)
    | _ =>
      if stages.any (fun s => s.get_name == st.get_name) then
        .error ("Duplicated stage name: " ++ pyFormat st.get_name)
      else .ok (stages ++ [st], st)

/-!
`Pipeline.run` (`pipeline.py` lines 146-206).  The engine
(`client.post_and_wait`) and the result decoder (`MessageType.from_json`,
which needs the session and the missing serializer module) are parameters.
-/

/-- An element of the `outputs` list or a key of the `feeds` dict:
a `Placeholder` stage object (translated to its `input_val` slot), a
`SlotDescriptor`, or anything else (rejected by the `require`). -/
inductive RunArg where
  | placeholder (sid : Nat)
  | slotDesc (d : SlotDesc)
  | other (r : String)

/-- Normalization of one element of `outputs` (`pipeline.py` lines
162-168): a Placeholder is replaced by its `input_val` slot descriptor, the
result must be a `SlotDescriptor`, and it is encoded with
`SlotDescriptor.to_json`.  The slot's direction is not examined. -/
def normOutput (ctx : Ctx) (o : RunArg) : Except String WireSlotKey :=
  match o with
  | .placeholder sid => SlotDesc.to_json ctx ⟨sid, "input_val", true⟩
  | .slotDesc d => SlotDesc.to_json ctx d
  | .other r => .error ("Expected an output slot, got " ++ r)

/-- The outputs loop of `run`. -/
def normOutputs (ctx : Ctx) : List RunArg → Except String (List WireSlotKey)
  | [] => .ok []
  | o :: rest => do
    let k <- normOutput ctx o
    let ks <- normOutputs ctx rest
    .ok (k :: ks)

/-- Normalization of one `feeds` key (`pipeline.py` lines 172-179):
translate a Placeholder key to its `input_val` slot, then require a
`SlotDescriptor`. -/
def normFeedKey : RunArg → Except String SlotDesc
  | .placeholder sid => .ok ⟨sid, "input_val", true⟩
  | .slotDesc d => .ok d
  | .other r => .error ("Expected slots as keys in feeds, got " ++ r)

/-- Processing of one `feeds` entry (`pipeline.py` lines 172-182): after
`normFeedKey`, require `message_type.is_valid(value)`, then store
`full_server_name -> message_type.to_json(value)` (the assignment evaluates
its right-hand side before the subscript key). -/
def normFeed (ctx : Ctx) (k : RunArg) (v : PyVal) :
    Except String (String × WireMsg) := do
  let d <- normFeedKey k
  let mt <- d.message_type ctx
  let ok <- mt.is_valid ctx v
  let _ <- require ok "Invalid value for slot"
  let msg <- mt.to_json ctx v
  let fsn <- d.full_server_name ctx
  .ok (fsn, msg)

/-- The feeds loop of `run`. -/
def normFeeds (ctx : Ctx) : List (RunArg × PyVal) →
    Except String (List (String × WireMsg))
  | [] => .ok []
  | (k, v) :: rest => do
    let e <- normFeed ctx k v
    let es <- normFeeds ctx rest
    .ok (e :: es)

/-- The local `Pipeline` object: nullable engine-assigned id plus the
ordered stages. -/
structure PipelineState where
  id : Option String
  stages : List StageObj

/-- The wire form of the pipeline (`Pipeline.to_json`,
`pipeline.py` lines 140-144). -/
structure PipelineJson where
  id : Option String
  stages : List StageJson

/-- The request body sent to `pipeline/run` (`pipeline.py` lines 189-192). -/
structure RunRequest where
  pipeline : PipelineJson
  feeds : List (String × WireMsg)
  outputs : List WireSlotKey
  timeout : Int

/-- The engine's response: the assigned pipeline id and the list of
`[slot-key, wire-message]` pairs. -/
structure RunResponse where
  pipelineId : String
  results : List (WireSlotKey × WireMsg)

/-- Serialization of the stage list (`Pipeline.to_json`). -/
def stagesJson (ctx : Ctx) : List StageObj → Except String (List StageJson)
  | [] => .ok []
  | st :: rest => do
    let j <- st.to_json ctx
    let js <- stagesJson ctx rest
    .ok (j :: js)

/-- Everything `run` does before invoking the engine (`pipeline.py` lines
156-192): normalize and encode the outputs, validate and encode the feeds,
and serialize the graph with its id forced to `None` so the engine treats
the submission as fresh. -/
def Pipeline.runPrepare (ctx : Ctx) (p : PipelineState) (outs : List RunArg)
    (feeds : List (RunArg × PyVal)) (timeout : Int) : Except String RunRequest := do
  let outKeys <- normOutputs ctx outs
  let feedsJson <- normFeeds ctx feeds
  let stJson <- stagesJson ctx p.stages
  .ok ⟨⟨Option.none, stJson⟩, feedsJson, outKeys, timeout⟩

/-- Rendering of a slot key in the MissingResult message (the Python code
formats the dict with `'{}'.format`; the exact repr is abbreviated here). -/
def keyFormat (k : WireSlotKey) : String :=
  pyFormat k.stageName ++ ":" ++ k.outputName

/-- The result-matching loop of `run` (`pipeline.py` lines 200-205): for
each requested output key, in the original request order, take the first
response pair whose key equals it (`next((v for k, v in results if k ==
out_slot), None)`), fail when there is none, and decode the payload. -/
def parseResults {α : Type} (decode : WireMsg → Except String α) :
    List WireSlotKey → List (WireSlotKey × WireMsg) → Except String (List α)
  | [], _ => .ok []
  | out :: rest, results =>
    match results.find? (fun pr => pr.1 == out) with
    | Option.none => .error ("Could not find result for output slot " ++ keyFormat out)
    | some pr => do
      let v <- decode pr.2
      let vs <- parseResults decode rest results
      .ok (v :: vs)

/-- The response handling of `run` (`pipeline.py` lines 199-206): the
result count must equal the number of requested outputs, then the results
are demultiplexed by key. -/
def Pipeline.runFinish {α : Type} (decode : WireMsg → Except String α)
    (outKeys : List WireSlotKey) (resp : RunResponse) : Except String (List α) := do
  let _ <- require (resp.results.length == outKeys.length) "Invalid result from server"
  parseResults decode outKeys resp.results

/-- `Pipeline.run` (`pipeline.py` lines 146-206), returning the updated
local pipeline object together with the outcome.  On a successful engine
round trip the engine-assigned `pipelineId` is stored onto the pipeline
(line 196) *before* the result list is examined. -/
def Pipeline.run {α : Type} (ctx : Ctx) (decode : WireMsg → Except String α)
    (p : PipelineState) (outs : List RunArg) (feeds : List (RunArg × PyVal))
    (timeout : Int) (engine : RunRequest → RunResponse) :
    PipelineState × Except String (List α) :=
  match Pipeline.runPrepare ctx p outs feeds timeout with
  | .error e => (p, .error e)
  | .ok req =>
    let resp := engine req
    ({ p with id := some resp.pipelineId },
     Pipeline.runFinish decode req.outputs resp)

/-!
Concrete fixtures mirroring the slot declarations of `stages.py`: the base
`Stage` class carries the reserved `name` slot (line 297), `_UnaryTransformer`
declares `input_df`/`output_df` (lines 405-406, decorators apply bottom-up so
`output_df` is registered first), `Drop` adds `col_names` (line 493), and
`_Estimator` additionally declares the Model-kind `model` output (lines
418-420).  Classes without declarations of their own have no bucket.
-/

def nameSlot : Slot := ⟨"name", ⟨.valueDef, Option.none⟩, true, "name"⟩

def outputDfSlot : Slot := ⟨"output_df", ⟨.dataframeDef, Option.none⟩, false, "outputDf"⟩

def inputDfSlot : Slot := ⟨"input_df", ⟨.dataframeDef, Option.none⟩, true, "inputDf"⟩

def colNamesSlot : Slot := ⟨"col_names", ⟨.valueDef, some "array"⟩, true, "colNames"⟩

def modelSlot : Slot := ⟨"model", ⟨.modelDef, Option.none⟩, false, "model"⟩

def REG0 : Registry :=
  [("Stage", [nameSlot]),
   ("_UnaryTransformer", [outputDfSlot, inputDfSlot]),
   ("Drop", [colNamesSlot]),
   ("_Estimator", [outputDfSlot, modelSlot, inputDfSlot])]

/-- A `Drop` stage named `drop_stage`, as in `tests/test_pipeline.py`
(`test_drop`). -/
def dropStage : StageObj :=
  ⟨0, "Drop", ["Drop", "_UnaryTransformer", "Stage"], [("name", .str "drop_stage")]⟩

/-- An `_Estimator` stage (its `model` output slot has the Model kind). -/
def estStage : StageObj :=
  ⟨1, "_Estimator", ["_Estimator", "Stage"], [("name", .str "est")]⟩

def ctx0 : Ctx :=
  ⟨REG0, fun i => if i == 1 then estStage else dropStage, fun _ _ => JVal.null⟩

/-- An unnamed stage of a hypothetical class `Foo` with no slots of its own. -/
def fooStage (i : Nat) : StageObj := ⟨i, "Foo", ["Foo", "Stage"], []⟩

/-- Claim C2 (code bug): adding three unnamed `Foo` stages to an empty
pipeline names every one of them `foo_0`, not `foo_0`, `foo_1`, `foo_2`:
the `while self.__contains__(new_name)` loop never advances because
`__contains__` compares the name `SlotDescriptor` against the candidate
string, which is always false. -/
theorem c2_three_unnamed_stages_all_get_foo_0 :
    (do
      let r1 <- Pipeline.addStage ctx0 [] (fooStage 10)
      let r2 <- Pipeline.addStage ctx0 r1.1 (fooStage 11)
      let r3 <- Pipeline.addStage ctx0 r2.1 (fooStage 12)
      Except.ok (r3.1.map StageObj.get_name)) =
    Except.ok [PyVal.str "foo_0", PyVal.str "foo_0", PyVal.str "foo_0"] := by
  rfl

/-- Claim C3 (code bug): on a pipeline holding a single stage named
`drop_stage`, the name-based membership test returns `false` and indexing
by name raises `KeyError`, because `Stage.name` is the property returning
the name `SlotDescriptor` and `SlotDescriptor == str` is always false in
Python.  The repository's own test (`tests/test_pipeline.py`, `test_drop`)
asserts the opposite. -/
theorem c3_contains_and_getitem_never_find_by_name :
    Pipeline.containsArg [dropStage] (.name "drop_stage") = .ok false ∧
    Pipeline.getitem [dropStage] "drop_stage" =
      .error "Stage not found: drop_stage" := by
  exact ⟨rfl, rfl⟩

/-- Claim C4 counterexample: for the Model kind, `is_valid` on a
`SlotDescriptor` whose own declared kind is Model does not return true; it
raises `NotImplementedError` (`stages.py` lines 72-74), so `is_valid` is
not a total boolean predicate for the Model kind. -/
theorem c4_model_is_valid_raises_on_model_slot_descriptor :
    MessageType.is_valid ctx0 ⟨.modelDef, Option.none⟩
      (.slotDesc ⟨1, "model", false⟩) = .error "NotImplementedError" := by
  rfl

/-- The Dataframe-kind validity predicate as the spec words it: true for
`None`, a Dataframe handle, or a `SlotDescriptor` declaring the Dataframe
kind; false otherwise.  Stated as a separate definition to compare against
the source-derived `MessageType.is_valid`. -/
def dataframeKindValidSpec (ctx : Ctx) (v : PyVal) : Except String Bool :=
  match v with
  | .none => .ok true
  | .dataframe _ => .ok true
  | .slotDesc d => (d.message_type ctx).map (fun m => m.msg_type == .dataframeDef)
  | _ => .ok false

/-- Claim C4, amended: the Dataframe kind behaves as specified (with `None`
additionally accepted), but the Model kind accepts only `None` and raises
`NotImplementedError` on every other value, including Model-kind
`SlotDescriptor`s. -/
theorem c4_amended_dataframe_ok_model_raises :
    (∀ (ctx : Ctx) (vt : Option String) (v : PyVal),
      MessageType.is_valid ctx ⟨.dataframeDef, vt⟩ v = dataframeKindValidSpec ctx v) ∧
    (∀ (ctx : Ctx) (vt : Option String) (v : PyVal), v ≠ .none →
      MessageType.is_valid ctx ⟨.modelDef, vt⟩ v = .error "NotImplementedError") ∧
    (∀ (ctx : Ctx) (vt : Option String),
      MessageType.is_valid ctx ⟨.modelDef, vt⟩ .none = .ok true) := by
  refine ⟨fun ctx vt v => ?_, fun ctx vt v hv => ?_, fun ctx vt => rfl⟩
  · cases v <;> rfl
  · cases v <;> first | exact absurd rfl hv | rfl

/-- Witness for `c4_amended_dataframe_ok_model_raises`: instantiated at a
Model-kind descriptor value and at a plain string on a Dataframe slot. -/
theorem c4_amended_witness :
    MessageType.is_valid ctx0 ⟨.modelDef, Option.none⟩ (.str "x") =
      .error "NotImplementedError" ∧
    MessageType.is_valid ctx0 ⟨.dataframeDef, Option.none⟩ (.str "x") =
      dataframeKindValidSpec ctx0 (.str "x") :=
  ⟨c4_amended_dataframe_ok_model_raises.2.1 ctx0 Option.none (.str "x") (by decide),
   c4_amended_dataframe_ok_model_raises.1 ctx0 Option.none (.str "x")⟩

/-! Inversion helpers for `Except` chains. -/

theorem exceptBind_ok {ε α β : Type} {x : Except ε α} {f : α → Except ε β} {b : β}
    (h : x >>= f = .ok b) : ∃ a, x = .ok a ∧ f a = .ok b := by
  cases x with
  | error e => exact absurd h (by simp [Bind.bind, Except.bind])
  | ok a => exact ⟨a, rfl, by simpa [Bind.bind, Except.bind] using h⟩

theorem require_ok {c : Bool} {msg : String} {u : Unit}
    (h : require c msg = .ok u) : c = true := by
  cases c with
  | true => rfl
  | false => exact absurd h (by simp [require])

/-- Claim C5: whenever encoding a slot value that is a `SlotDescriptor`
succeeds, the wire message is tagged `StageOutputDef` — whatever the slot's
declared kind — and its payload is the pair of the descriptor's parent's
*current* name and the referenced slot's server name. -/
theorem c5_slot_descriptor_always_retagged_stage_output :
    ∀ (ctx : Ctx) (mt : MessageType) (d : SlotDesc) (m : WireMsg),
      MessageType.to_json ctx mt (.slotDesc d) = .ok m →
      ∃ sn, SlotDesc.server_name ctx d = .ok sn ∧
        m = ⟨.stageOutputDef, .key ⟨(ctx.env d.parent).get_input_val "name", sn⟩⟩ := by
  intro ctx mt d m h
  unfold MessageType.to_json at h
  obtain ⟨valid, _, h⟩ := exceptBind_ok h
  obtain ⟨u, hreq, h⟩ := exceptBind_ok h
  rw [if_neg (by simp)] at h
  change (do
    let dmt <- d.message_type ctx
    let _ <- require (dmt.msg_type == mt.msg_type)
      "Incompatible message type between input slot and output slot"
    let k <- d.to_json ctx
    Except.ok (⟨.stageOutputDef, .key k⟩ : WireMsg)) = .ok m at h
  obtain ⟨dmt, _, h⟩ := exceptBind_ok h
  obtain ⟨u2, hreq2, h⟩ := exceptBind_ok h
  obtain ⟨k, hk, h⟩ := exceptBind_ok h
  unfold SlotDesc.to_json at hk
  unfold SlotDesc.server_name at hk
  unfold SlotDesc.server_name
  cases hs : (ctx.env d.parent).slot ctx.REG d.name d.is_input with
  | error e => rw [hs] at hk; exact absurd hk (by simp [Except.map])
  | ok s =>
    rw [hs] at hk
    simp only [Except.map] at hk
    cases hk
    refine ⟨s.server_name, by simp [hs, Except.map], ?_⟩
    cases h
    rfl

/-- Every entry of the serialized inputs map of a stage comes from a
non-`name` input slot whose bound value is not `None`, and carries that
slot's per-kind encoding of the bound value. -/
theorem stageInputsJson_mem {ctx : Ctx} {st : StageObj} :
    ∀ {slots : List Slot} {l : List (String × WireMsg)},
      stageInputsJson ctx st slots = .ok l →
      ∀ p ∈ l, ∃ t ∈ slots, t.name ≠ "name" ∧ st.get_input_val t.name ≠ .none ∧
        p.1 = t.server_name ∧
        t.message_type.to_json ctx (st.get_input_val t.name) = .ok p.2 := by
  intro slots
  induction slots with
  | nil =>
    intro l h p hp
    unfold stageInputsJson at h
    cases h
    exact absurd hp (by simp)
  | cons s rest ih =>
    intro l h p hp
    unfold stageInputsJson at h
    by_cases hname : s.name = "name"
    · rw [if_pos (by simp [hname])] at h
      obtain ⟨t, ht, hrest⟩ := ih h p hp
      exact ⟨t, List.mem_cons_of_mem _ ht, hrest⟩
    · rw [if_neg (by simp [hname])] at h
      cases hv : st.get_input_val s.name with
      | none =>
        rw [hv] at h
        obtain ⟨t, ht, hrest⟩ := ih h p hp
        exact ⟨t, List.mem_cons_of_mem _ ht, hrest⟩
      | _ =>
        rw [hv] at h
        first
        | (obtain ⟨m, hm, h⟩ := exceptBind_ok h
           obtain ⟨restJ, hrest, h⟩ := exceptBind_ok h
           cases h
           rcases List.mem_cons.mp hp with hphead | hptail
           · subst hphead
             exact ⟨s, List.mem_cons_self _ _, hname, by rw [hv]; simp, rfl,
               by rw [hv]; exact hm⟩
           · obtain ⟨t, ht, hrest2⟩ := ih hrest p hptail
             exact ⟨t, List.mem_cons_of_mem _ ht, hrest2⟩)

/-- Claim C10: `is_valid(None)` is true for every message kind; setting an
owned input slot to `None` succeeds and records the binding; and the
serialized inputs map never contains an entry for a `None`-valued slot. -/
theorem c10_none_valid_set_and_omitted :
    (∀ (ctx : Ctx) (mt : MessageType), MessageType.is_valid ctx mt .none = .ok true) ∧
    (∀ (ctx : Ctx) (st : StageObj) (d : SlotDesc) (sl : Slot),
      d.parent = st.id → d.is_input = true →
      st.slot ctx.REG d.name d.is_input = .ok sl →
      st.set_input ctx d .none =
        .ok { st with slot_values := dictSet st.slot_values d.name .none }) ∧
    (∀ (ctx : Ctx) (st : StageObj) (slots : List Slot) (l : List (String × WireMsg)),
      stageInputsJson ctx st slots = .ok l →
      ∀ p ∈ l, ∃ t ∈ slots, t.server_name = p.1 ∧ st.get_input_val t.name ≠ .none) := by
  refine ⟨fun ctx mt => rfl, fun ctx st d sl h1 h2 hslot => ?_, fun ctx st slots l h p hp => ?_⟩
  · unfold StageObj.set_input
    rw [h1, h2]
    simp only [require, beq_self_eq_true, Bool.and_true, if_pos]
    simp only [Bind.bind, Except.bind]
    rw [h2] at hslot
    rw [hslot]
    simp [Except.map, MessageType.is_valid, require]
  · obtain ⟨t, ht, _, hnn, hsrv, _⟩ := stageInputsJson_mem h p hp
    exact ⟨t, ht, hsrv.symm, hnn⟩

/-- Witness for `c10_none_valid_set_and_omitted`: binding `None` to the
`input_df` slot of the concrete `Drop` stage records the binding. -/
theorem c10_witness :
    dropStage.set_input ctx0 ⟨0, "input_df", true⟩ .none =
      .ok { dropStage with
            slot_values := dictSet dropStage.slot_values "input_df" .none } :=
  c10_none_valid_set_and_omitted.2.1 ctx0 dropStage ⟨0, "input_df", true⟩
    inputDfSlot rfl rfl (by rfl)

/-- Witness for `c5_slot_descriptor_always_retagged_stage_output`: binding
the Dataframe-kind output `output_df` of the stage named `drop_stage` into
a Dataframe-kind slot serializes to a `StageOutputDef` message carrying the
parent's current name and the server name `outputDf`. -/
theorem c5_witness :
    MessageType.to_json ctx0 ⟨.dataframeDef, Option.none⟩
        (.slotDesc ⟨0, "output_df", false⟩) =
      .ok ⟨.stageOutputDef, .key ⟨.str "drop_stage", "outputDf"⟩⟩ ∧
    (∃ sn, SlotDesc.server_name ctx0 ⟨0, "output_df", false⟩ = .ok sn ∧
      (⟨.stageOutputDef, .key ⟨.str "drop_stage", "outputDf"⟩⟩ : WireMsg) =
        ⟨.stageOutputDef,
          .key ⟨(ctx0.env 0).get_input_val "name", sn⟩⟩) :=
  ⟨rfl,
   c5_slot_descriptor_always_retagged_stage_output ctx0 ⟨.dataframeDef, Option.none⟩
     ⟨0, "output_df", false⟩ ⟨.stageOutputDef, .key ⟨.str "drop_stage", "outputDf"⟩⟩ rfl⟩

/-- Every requested key being matched (with a decodable payload) makes the
demultiplexing loop return the values in the request order. -/
theorem parseResults_all_found {α : Type} (decode : WireMsg → Except String α)
    (f : WireSlotKey → α) (results : List (WireSlotKey × WireMsg)) :
    ∀ (outs : List WireSlotKey),
      (∀ k ∈ outs, ∃ m, results.find? (fun pr => pr.1 == k) = some (k, m) ∧
        decode m = .ok (f k)) →
      parseResults decode outs results = .ok (outs.map f) := by
  intro outs
  induction outs with
  | nil => intro _; rfl
  | cons o rest ih =>
    intro h
    obtain ⟨m, hfind, hdec⟩ := h o (List.mem_cons_self _ _)
    unfold parseResults
    rw [hfind]
    change (do
      let v <- decode m
      let vs <- parseResults decode rest results
      Except.ok (v :: vs)) = _
    rw [hdec]
    have hrest := ih (fun k hk => h k (List.mem_cons_of_mem _ hk))
    change (do
      let vs <- parseResults decode rest results
      Except.ok (f o :: vs)) = _
    rw [hrest]
    rfl

/-- If every key before `k0` in the request is matched and decodable but
`k0` has no matching response pair, the demultiplexing loop fails with the
MissingResult error for `k0`. -/
theorem parseResults_missing {α : Type} (decode : WireMsg → Except String α)
    (results : List (WireSlotKey × WireMsg)) :
    ∀ (pre : List WireSlotKey) (post : List WireSlotKey) (k0 : WireSlotKey),
      (∀ k ∈ pre, ∃ m w, results.find? (fun pr => pr.1 == k) = some (k, m) ∧
        decode m = .ok w) →
      results.find? (fun pr => pr.1 == k0) = Option.none →
      parseResults decode (pre ++ k0 :: post) results =
        .error ("Could not find result for output slot " ++ keyFormat k0) := by
  intro pre
  induction pre with
  | nil =>
    intro post k0 _ hmiss
    rw [List.nil_append]
    unfold parseResults
    rw [hmiss]
  | cons p pre' ih =>
    intro post k0 h hmiss
    obtain ⟨m, w, hfind, hdec⟩ := h p (List.mem_cons_self _ _)
    rw [List.cons_append]
    unfold parseResults
    rw [hfind]
    change (do
      let v <- decode m
      let vs <- parseResults decode (pre' ++ k0 :: post) results
      Except.ok (v :: vs)) = _
    rw [hdec]
    change (do
      let vs <- parseResults decode (pre' ++ k0 :: post) results
      Except.ok (w :: vs)) = _
    rw [ih post k0 (fun k hk => h k (List.mem_cons_of_mem _ hk)) hmiss]
    rfl

/-- Claim C1: when the engine responds with exactly one tagged result per
requested output, `run` matches each requested output to its result by the
encoded slot key — not by position — and returns the decoded values in the
original request order (in particular a response in reversed order); and
when a requested key has no matching pair in a response of the right
length, the run fails with the MissingResult error for that key. -/
theorem c1_results_matched_by_key_in_request_order :
    (∀ (α : Type) (decode : WireMsg → Except String α) (pid : String)
       (outs : List WireSlotKey) (results : List (WireSlotKey × WireMsg))
       (f : WireSlotKey → α),
       results.length = outs.length →
       (∀ k ∈ outs, ∃ m, results.find? (fun pr => pr.1 == k) = some (k, m) ∧
         decode m = .ok (f k)) →
       Pipeline.runFinish decode outs ⟨pid, results⟩ = .ok (outs.map f)) ∧
    (∀ (α : Type) (decode : WireMsg → Except String α) (pid : String)
       (pre post : List WireSlotKey) (k0 : WireSlotKey)
       (results : List (WireSlotKey × WireMsg)),
       results.length = (pre ++ k0 :: post).length →
       (∀ k ∈ pre, ∃ m w, results.find? (fun pr => pr.1 == k) = some (k, m) ∧
         decode m = .ok w) →
       results.find? (fun pr => pr.1 == k0) = Option.none →
       Pipeline.runFinish decode (pre ++ k0 :: post) ⟨pid, results⟩ =
         .error ("Could not find result for output slot " ++ keyFormat k0)) := by
  constructor
  · intro α decode pid outs results f hlen h
    unfold Pipeline.runFinish
    rw [hlen, beq_self_eq_true]
    change parseResults decode outs results = _
    exact parseResults_all_found decode f results outs h
  · intro α decode pid pre post k0 results hlen h hmiss
    unfold Pipeline.runFinish
    rw [hlen, beq_self_eq_true]
    change parseResults decode (pre ++ k0 :: post) results = _
    exact parseResults_missing decode results pre post k0 h hmiss

def keyX : WireSlotKey := ⟨.str "a", "outX"⟩

def keyY : WireSlotKey := ⟨.str "a", "outY"⟩

def msgX : WireMsg := ⟨.valueDef, .value (JVal.jnum 1)⟩

def msgY : WireMsg := ⟨.valueDef, .value (JVal.jnum 2)⟩

def decodeNum : WireMsg → Except String Int := fun m =>
  match m.payload with
  | .value (JVal.jnum n) => .ok n
  | _ => .error "undecodable"

def fXY : WireSlotKey → Int := fun k => if k == keyX then 1 else 2

/-- Witness for `c1_results_matched_by_key_in_request_order`: a response
returning the two requested outputs in reversed order is demultiplexed
back into the originally requested order. -/
theorem c1_witness :
    Pipeline.runFinish decodeNum [keyX, keyY]
      ⟨"pid", [(keyY, msgY), (keyX, msgX)]⟩ = .ok [1, 2] := by
  have hmatch : ∀ k ∈ [keyX, keyY], ∃ m,
      ([(keyY, msgY), (keyX, msgX)].find? (fun pr => pr.1 == k)) = some (k, m) ∧
      decodeNum m = .ok (fXY k) := by
    intro k hk
    rcases List.mem_cons.mp hk with rfl | hk2
    · exact ⟨msgX, by rfl, by rfl⟩
    · rcases List.mem_cons.mp hk2 with rfl | hk3
      · exact ⟨msgY, by rfl, by rfl⟩
      · cases hk3
  have h := c1_results_matched_by_key_in_request_order.1 Int decodeNum "pid"
    [keyX, keyY] [(keyY, msgY), (keyX, msgX)] fXY rfl hmatch
  have hmap : List.map fXY [keyX, keyY] = [1, 2] := by rfl
  rw [hmap] at h
  exact h

/-- A failing `runPrepare` makes `run` return the error with the local
pipeline object untouched — in particular the engine is never consulted. -/
theorem run_of_prepare_error {α : Type} (ctx : Ctx)
    (decode : WireMsg → Except String α) (p : PipelineState)
    (outs : List RunArg) (feeds : List (RunArg × PyVal)) (t : Int)
    (msg : String) (engine : RunRequest → RunResponse)
    (h : Pipeline.runPrepare ctx p outs feeds t = .error msg) :
    Pipeline.run ctx decode p outs feeds t engine = (p, .error msg) := by
  unfold Pipeline.run
  rw [h]

/-- An `outputs` element that is neither a Placeholder nor a
`SlotDescriptor` makes the outputs loop fail. -/
theorem normOutputs_error_of_other (ctx : Ctx) :
    ∀ (outs : List RunArg) (r : String), RunArg.other r ∈ outs →
      ∃ msg, normOutputs ctx outs = .error msg := by
  intro outs r hmem
  induction outs with
  | nil => cases hmem
  | cons o rest ih =>
    rcases List.mem_cons.mp hmem with rfl | htail
    · refine ⟨"Expected an output slot, got " ++ r, ?_⟩
      unfold normOutputs
      rfl
    · cases ho : normOutput ctx o with
      | error e =>
        refine ⟨e, ?_⟩
        unfold normOutputs
        rw [ho]
        rfl
      | ok k =>
        obtain ⟨msg, hmsg⟩ := ih htail
        refine ⟨msg, ?_⟩
        unfold normOutputs
        rw [ho, hmsg]
        rfl

/-- Claim C6, amended: `run` fails before the engine is invoked when an
`outputs` element is neither a Placeholder nor a `SlotDescriptor`; the
direction of the slot is not examined (see the counterexample for an
accepted input-direction slot). -/
theorem c6_amended_non_slot_output_fails_before_engine :
    ∀ (ctx : Ctx) (α : Type) (decode : WireMsg → Except String α)
      (p : PipelineState) (outs : List RunArg) (feeds : List (RunArg × PyVal))
      (t : Int) (r : String), RunArg.other r ∈ outs →
      ∃ msg, ∀ engine,
        Pipeline.run ctx decode p outs feeds t engine = (p, .error msg) := by
  intro ctx α decode p outs feeds t r hmem
  obtain ⟨msg, hmsg⟩ := normOutputs_error_of_other ctx outs r hmem
  refine ⟨msg, fun engine => ?_⟩
  apply run_of_prepare_error
  unfold Pipeline.runPrepare
  rw [hmsg]
  rfl

/-- Witness for `c6_amended_non_slot_output_fails_before_engine`. -/
theorem c6_amended_witness :
    ∃ msg, ∀ engine,
      Pipeline.run ctx0 (fun _ => Except.ok (0 : Int)) ⟨Option.none, [dropStage]⟩
        [RunArg.other "a string"] [] (-1) engine =
      (⟨Option.none, [dropStage]⟩, .error msg) :=
  c6_amended_non_slot_output_fails_before_engine ctx0 Int _ _ _ [] (-1)
    "a string" (List.mem_cons_self _ _)

/-- An engine that answers the C6 counterexample request with a result
tagged by the encoded key of the *input* slot `inputDf` of `drop_stage`. -/
def engineC6 : RunRequest → RunResponse :=
  fun _ => ⟨"pid", [(⟨.str "drop_stage", "inputDf"⟩, ⟨.valueDef, .null⟩)]⟩

/-- Claim C6 counterexample: requesting the *input*-direction slot
`input_df` of the `Drop` stage as an output does not fail — `run` accepts
it, sends the request, and returns a value — contradicting the claim that
a non-output slot makes `run` fail with InvalidOutputRequest before
anything is sent to the engine. -/
theorem c6_counterexample_input_slot_accepted_as_output :
    Pipeline.run ctx0 (fun _ => Except.ok (0 : Int)) ⟨Option.none, [dropStage]⟩
      [RunArg.slotDesc ⟨0, "input_df", true⟩] [] (-1) engineC6 =
    (⟨some "pid", [dropStage]⟩, .ok [0]) := by
  rfl

/-- A successful feeds loop implies that every feed value passed the
`is_valid` check of its target slot's message type. -/
theorem normFeeds_ok_all_valid {ctx : Ctx} :
    ∀ {feeds : List (RunArg × PyVal)} {l : List (String × WireMsg)},
      normFeeds ctx feeds = .ok l →
      ∀ kv ∈ feeds, ∀ (d : SlotDesc) (mt : MessageType),
        normFeedKey kv.1 = .ok d → d.message_type ctx = .ok mt →
        mt.is_valid ctx kv.2 = .ok true := by
  intro feeds
  induction feeds with
  | nil => intro l _ kv hkv; cases hkv
  | cons e rest ih =>
    obtain ⟨k, v⟩ := e
    intro l h kv hkv d mt hkey hmt
    unfold normFeeds at h
    obtain ⟨entry, hentry, h⟩ := exceptBind_ok h
    obtain ⟨es, hes, _⟩ := exceptBind_ok h
    rcases List.mem_cons.mp hkv with rfl | htail
    · unfold normFeed at hentry
      obtain ⟨d2, hd2, hentry⟩ := exceptBind_ok hentry
      rw [hkey] at hd2
      cases hd2
      obtain ⟨mt2, hmt2, hentry⟩ := exceptBind_ok hentry
      rw [hmt] at hmt2
      cases hmt2
      obtain ⟨vx, hvx, hentry⟩ := exceptBind_ok hentry
      obtain ⟨u, hrequ, _⟩ := exceptBind_ok hentry
      have hvt := require_ok hrequ
      subst hvt
      exact hvx
    · exact ih hes kv htail d mt hkey hmt

/-- A successful `runPrepare` implies a successful feeds loop. -/
theorem runPrepare_ok_feeds {ctx : Ctx} {p : PipelineState} {outs : List RunArg}
    {feeds : List (RunArg × PyVal)} {t : Int} {req : RunRequest}
    (h : Pipeline.runPrepare ctx p outs feeds t = .ok req) :
    ∃ l, normFeeds ctx feeds = .ok l := by
  unfold Pipeline.runPrepare at h
  obtain ⟨ks, _, h⟩ := exceptBind_ok h
  obtain ⟨l, hl, _⟩ := exceptBind_ok h
  exact ⟨l, hl⟩

/-- Claim C7: a feed value failing `is_valid` for its target slot's
message type makes the feed loop raise the ValidationError, and makes
`run` return an error that does not depend on the engine — the transport
is never invoked and the pipeline object is left unchanged. -/
theorem c7_invalid_feed_fails_before_engine :
    ∀ (ctx : Ctx) (α : Type) (decode : WireMsg → Except String α)
      (p : PipelineState) (outs : List RunArg) (feeds : List (RunArg × PyVal))
      (t : Int) (k : RunArg) (v : PyVal) (d : SlotDesc) (mt : MessageType),
      (k, v) ∈ feeds → normFeedKey k = .ok d →
      d.message_type ctx = .ok mt → mt.is_valid ctx v ≠ .ok true →
      (mt.is_valid ctx v = .ok false →
        normFeed ctx k v = .error "Invalid value for slot") ∧
      ∃ msg, ∀ engine,
        Pipeline.run ctx decode p outs feeds t engine = (p, .error msg) := by
  intro ctx α decode p outs feeds t k v d mt hkv hkey hmt hnv
  constructor
  · intro hfalse
    unfold normFeed
    rw [hkey]
    change (do
      let mt <- SlotDesc.message_type ctx d
      let ok <- MessageType.is_valid ctx mt v
      let _ <- require ok "Invalid value for slot"
      let msg <- MessageType.to_json ctx mt v
      let fsn <- SlotDesc.full_server_name ctx d
      Except.ok (fsn, msg)) = _
    rw [hmt]
    change (do
      let ok <- MessageType.is_valid ctx mt v
      let _ <- require ok "Invalid value for slot"
      let msg <- MessageType.to_json ctx mt v
      let fsn <- SlotDesc.full_server_name ctx d
      Except.ok (fsn, msg)) = _
    rw [hfalse]
    rfl
  · cases hprep : Pipeline.runPrepare ctx p outs feeds t with
    | error msg =>
      exact ⟨msg, fun engine => run_of_prepare_error ctx decode p outs feeds t
        msg engine hprep⟩
    | ok req =>
      obtain ⟨l, hl⟩ := runPrepare_ok_feeds hprep
      exact absurd (normFeeds_ok_all_valid hl (k, v) hkv d mt hkey hmt) hnv

/-- Witness for `c7_invalid_feed_fails_before_engine`: feeding the string
`"oops"` into the Dataframe-kind slot `input_df` fails validation and
blocks the run for every engine. -/
theorem c7_witness :
    normFeed ctx0 (RunArg.slotDesc ⟨0, "input_df", true⟩) (.str "oops") =
      .error "Invalid value for slot" ∧
    ∃ msg, ∀ engine,
      Pipeline.run ctx0 (fun _ => Except.ok (0 : Int)) ⟨Option.none, [dropStage]⟩
        [] [(RunArg.slotDesc ⟨0, "input_df", true⟩, .str "oops")] (-1) engine =
      (⟨Option.none, [dropStage]⟩, .error msg) := by
  have h := c7_invalid_feed_fails_before_engine ctx0 Int (fun _ => Except.ok 0)
    ⟨Option.none, [dropStage]⟩ [] [(RunArg.slotDesc ⟨0, "input_df", true⟩, .str "oops")]
    (-1) (RunArg.slotDesc ⟨0, "input_df", true⟩) (.str "oops")
    ⟨0, "input_df", true⟩ ⟨.dataframeDef, Option.none⟩
    (List.mem_cons_self _ _) rfl rfl (by intro hx; cases hx)
  exact ⟨h.1 rfl, h.2⟩

/-- Claim C9: once `runPrepare` succeeds, the engine-assigned `pipelineId`
is stored onto the local pipeline object unconditionally — in particular it
has already overwritten the previous id when the result-count check then
fails with the ProtocolError. -/
theorem c9_pipeline_id_stored_before_result_check :
    ∀ (ctx : Ctx) (α : Type) (decode : WireMsg → Except String α)
      (p : PipelineState) (outs : List RunArg) (feeds : List (RunArg × PyVal))
      (t : Int) (engine : RunRequest → RunResponse) (req : RunRequest),
      Pipeline.runPrepare ctx p outs feeds t = .ok req →
      (Pipeline.run ctx decode p outs feeds t engine).1 =
        { p with id := some (engine req).pipelineId } ∧
      ((engine req).results.length ≠ req.outputs.length →
        (Pipeline.run ctx decode p outs feeds t engine).2 =
          .error "Invalid result from server") := by
  intro ctx α decode p outs feeds t engine req hprep
  constructor
  · unfold Pipeline.run
    rw [hprep]
  · intro hne
    unfold Pipeline.run
    rw [hprep]
    have hbeq : ((engine req).results.length == req.outputs.length) = false := by
      simp [hne]
    change (do
      let _ <- require ((engine req).results.length == req.outputs.length)
        "Invalid result from server"
      parseResults decode req.outputs (engine req).results) = _
    rw [hbeq]
    rfl

/-- An engine answering with an empty result list. -/
def engineEmpty : RunRequest → RunResponse := fun _ => ⟨"new", []⟩

/-- Witness for `c9_pipeline_id_stored_before_result_check`: a run whose
engine response has the wrong result count fails with the ProtocolError,
yet the pipeline's previous id `old` has already been replaced by the
engine-assigned id `new`. -/
theorem c9_witness :
    (Pipeline.run ctx0 (fun _ => Except.ok (0 : Int)) ⟨some "old", [dropStage]⟩
        [RunArg.slotDesc ⟨0, "output_df", false⟩] [] (-1) engineEmpty).1 =
      ⟨some "new", [dropStage]⟩ ∧
    (Pipeline.run ctx0 (fun _ => Except.ok (0 : Int)) ⟨some "old", [dropStage]⟩
        [RunArg.slotDesc ⟨0, "output_df", false⟩] [] (-1) engineEmpty).2 =
      .error "Invalid result from server" := by
  have h := c9_pipeline_id_stored_before_result_check ctx0 Int (fun _ => Except.ok 0)
    ⟨some "old", [dropStage]⟩ [RunArg.slotDesc ⟨0, "output_df", false⟩] [] (-1)
    engineEmpty
    ⟨⟨Option.none, [⟨.str "drop_stage", "Drop", []⟩]⟩, [],
      [⟨.str "drop_stage", "outputDf"⟩], -1⟩ rfl
  exact ⟨h.1, h.2 (by decide)⟩

/-! Registry lemmas for the slot-registration claim. -/

theorem bucket_cons (e : String × List Slot) (rest : Registry) (c : String) :
    bucket (e :: rest) c = if e.1 == c then e.2 else bucket rest c := by
  cases he : (e.1 == c) <;> simp [bucket, List.find?_cons, he]

theorem bucket_append_empty (REG : Registry) (cn c : String) :
    bucket (REG ++ [(cn, [])]) c = bucket REG c := by
  induction REG with
  | nil =>
    rw [List.nil_append]
    cases hc : (cn == c) <;> simp [bucket, List.find?, hc]
  | cons e rest ih =>
    rw [List.cons_append, bucket_cons, bucket_cons, ih]

theorem bucketAppend_other (cn : String) (s : Slot) (c : String) (hc : c ≠ cn) :
    ∀ R : Registry, bucket (bucketAppend R cn s) c = bucket R c := by
  intro R
  induction R with
  | nil => rfl
  | cons e rest ih =>
    unfold bucketAppend at ih ⊢
    simp only [beq_iff_eq] at ih
    by_cases hecn : e.1 = cn
    · have hcn_c : ¬(cn = c) := fun h => hc h.symm
      simp [List.map_cons, bucket_cons, hecn, hcn_c, ih]
    · simp [List.map_cons, bucket_cons, hecn, ih]

theorem bucketAppend_self (cn : String) (s : Slot) :
    ∀ R : Registry, R.any (fun p => p.1 == cn) = true →
      bucket (bucketAppend R cn s) cn = bucket R cn ++ [s] := by
  intro R
  induction R with
  | nil => intro hex; simp at hex
  | cons e rest ih =>
    intro hex
    unfold bucketAppend at ih ⊢
    simp only [beq_iff_eq] at ih
    by_cases hecn : e.1 = cn
    · simp [List.map_cons, bucket_cons, hecn]
    · have hex2 : rest.any (fun p => p.1 == cn) = true := by
        rw [List.any_cons] at hex
        have hb : (e.1 == cn) = false := beq_eq_false_iff_ne.mpr hecn
        rw [hb] at hex
        simpa using hex
      simp [List.map_cons, bucket_cons, hecn, ih hex2]

theorem get_slots_cons (R : Registry) (c : String) (rest : List String)
    (isIn : Bool) :
    get_slots R (c :: rest) isIn =
      (bucket R c).filter (fun s => s.is_input == isIn) ++
        get_slots R rest isIn := rfl

theorem get_slots_congr {R1 R2 : Registry} (mro : List String) (isIn : Bool) :
    (∀ c ∈ mro, bucket R1 c = bucket R2 c) →
    get_slots R1 mro isIn = get_slots R2 mro isIn := by
  induction mro with
  | nil => intro _; rfl
  | cons c rest ih =>
    intro h
    rw [get_slots_cons, get_slots_cons, h c (List.mem_cons_self _ _),
      ih (fun c2 hc2 => h c2 (List.mem_cons_of_mem _ hc2))]

theorem get_slots_append (R : Registry) (a b : List String) (isIn : Bool) :
    get_slots R (a ++ b) isIn = get_slots R a isIn ++ get_slots R b isIn := by
  induction a with
  | nil => rfl
  | cons c rest ih =>
    rw [List.cons_append, get_slots_cons, get_slots_cons, ih, List.append_assoc]

/-- Claim C8: registering a slot whose name is already visible to the class
in the same direction — through its own bucket or anything inherited along
the composed MRO — fails at class-definition time with the `ValueError`
naming the class and the slot; on success the name was fresh in that
direction, and per-direction name uniqueness of the class's merged slot
view is preserved. -/
theorem c8_duplicate_slot_registration_raises :
    ∀ (REG : Registry) (className : String) (mro : List String) (name : String)
      (mt : MessageType) (sn : Option String) (isIn : Bool),
      ((∃ t ∈ get_slots REG mro isIn, t.name = name) →
        add_slot REG className mro name mt sn isIn =
          .error ("Duplicated slot named " ++ name ++ " in class " ++ className)) ∧
      (∀ REG', add_slot REG className mro name mt sn isIn = .ok REG' →
        (∀ t ∈ get_slots REG mro isIn, t.name ≠ name) ∧
        (className ∈ mro → mro.Nodup →
          ((get_slots REG mro isIn).map Slot.name).Nodup →
          ((get_slots REG' mro isIn).map Slot.name).Nodup)) := by
  intro REG className mro name mt sn isIn
  have hbuck : ∀ c, bucket (if REG.any (fun p => p.1 == className) then REG
      else REG ++ [(className, [])]) c = bucket REG c := by
    intro c
    by_cases hany : REG.any (fun p => p.1 == className) = true
    · rw [if_pos hany]
    · rw [Bool.not_eq_true] at hany
      rw [if_neg (by simp [hany])]
      exact bucket_append_empty REG className c
  have hview : get_slots (if REG.any (fun p => p.1 == className) then REG
      else REG ++ [(className, [])]) mro isIn = get_slots REG mro isIn :=
    get_slots_congr mro isIn (fun c _ => hbuck c)
  have hadd : add_slot REG className mro name mt sn isIn =
      (if ((get_slots (if REG.any (fun p => p.1 == className) then REG
          else REG ++ [(className, [])]) mro isIn).find?
          (fun p => p.name == name)).isSome then
        Except.error ("Duplicated slot named " ++ name ++ " in class " ++ className)
      else Except.ok (bucketAppend (if REG.any (fun p => p.1 == className) then REG
          else REG ++ [(className, [])]) className
          ⟨name, mt, isIn, sn.getD name⟩)) := rfl
  rw [hview] at hadd
  constructor
  · intro hdup
    obtain ⟨t, ht, htn⟩ := hdup
    have hcondT : ((get_slots REG mro isIn).find?
        (fun p => p.name == name)).isSome = true := by
      rw [List.find?_isSome]
      exact ⟨t, ht, by simp [htn]⟩
    rw [hadd, if_pos hcondT]
  · intro REG' hok
    rw [hadd] at hok
    by_cases hcond : ((get_slots REG mro isIn).find?
        (fun p => p.name == name)).isSome = true
    · rw [if_pos hcond] at hok
      cases hok
    · rw [Bool.not_eq_true] at hcond
      rw [if_neg (by simp [hcond])] at hok
      have hfind : (get_slots REG mro isIn).find? (fun p => p.name == name) =
          Option.none := Option.not_isSome_iff_eq_none.mp (by simp [hcond])
      have hfresh : ∀ t ∈ get_slots REG mro isIn, t.name ≠ name := by
        intro t ht htn
        rw [List.find?_eq_none] at hfind
        exact absurd (by simp [htn]) (hfind t ht)
      refine ⟨hfresh, ?_⟩
      intro hmem hnodup hnames
      cases hok
      have hex : (if REG.any (fun p => p.1 == className) then REG
          else REG ++ [(className, [])]).any (fun p => p.1 == className) = true := by
        by_cases hany : REG.any (fun p => p.1 == className) = true
        · rw [if_pos hany]; exact hany
        · rw [Bool.not_eq_true] at hany
          rw [if_neg (by simp [hany]), List.any_append]
          simp
      have hb_other : ∀ c, c ≠ className →
          bucket (bucketAppend (if REG.any (fun p => p.1 == className) then REG
            else REG ++ [(className, [])]) className
            ⟨name, mt, isIn, sn.getD name⟩) c = bucket REG c := by
        intro c hc
        rw [bucketAppend_other className _ c hc _, hbuck c]
      have hb_self : bucket (bucketAppend (if REG.any (fun p => p.1 == className)
          then REG else REG ++ [(className, [])]) className
          ⟨name, mt, isIn, sn.getD name⟩) className =
          bucket REG className ++ [⟨name, mt, isIn, sn.getD name⟩] := by
        rw [bucketAppend_self className _ _ hex, hbuck className]
      obtain ⟨m1, m2, rfl⟩ := List.append_of_mem hmem
      rw [List.nodup_append] at hnodup
      have hnm1 : className ∉ m1 := fun hs =>
        (hnodup.2.2 hs (List.mem_cons_self _ _)).elim
      have hnm2 : className ∉ m2 := by
        have h2 := hnodup.2.1
        rw [List.nodup_cons] at h2
        exact h2.1
      have hperm : List.Perm
          (get_slots (bucketAppend (if REG.any (fun p => p.1 == className)
            then REG else REG ++ [(className, [])]) className
            ⟨name, mt, isIn, sn.getD name⟩) (m1 ++ className :: m2) isIn)
          ((⟨name, mt, isIn, sn.getD name⟩ : Slot) ::
            get_slots REG (m1 ++ className :: m2) isIn) := by
        rw [get_slots_append, get_slots_append]
        have hm1 : get_slots (bucketAppend (if REG.any (fun p => p.1 == className)
            then REG else REG ++ [(className, [])]) className
            ⟨name, mt, isIn, sn.getD name⟩) m1 isIn = get_slots REG m1 isIn :=
          get_slots_congr m1 isIn (fun c hc => hb_other c (fun h => hnm1 (h ▸ hc)))
        have hm2 : get_slots (bucketAppend (if REG.any (fun p => p.1 == className)
            then REG else REG ++ [(className, [])]) className
            ⟨name, mt, isIn, sn.getD name⟩) m2 isIn = get_slots REG m2 isIn :=
          get_slots_congr m2 isIn (fun c hc => hb_other c (fun h => hnm2 (h ▸ hc)))
        rw [get_slots_cons, get_slots_cons, hm1, hm2, hb_self, List.filter_append]
        have hfs : List.filter (fun t => t.is_input == isIn)
            [(⟨name, mt, isIn, sn.getD name⟩ : Slot)] =
            [⟨name, mt, isIn, sn.getD name⟩] := by
          simp [List.filter]
        rw [hfs]
        have h1 : get_slots REG m1 isIn ++
            ((bucket REG className).filter (fun t => t.is_input == isIn) ++
              [(⟨name, mt, isIn, sn.getD name⟩ : Slot)] ++
              get_slots REG m2 isIn) =
            (get_slots REG m1 isIn ++
              (bucket REG className).filter (fun t => t.is_input == isIn)) ++
              (⟨name, mt, isIn, sn.getD name⟩ : Slot) :: get_slots REG m2 isIn := by
          simp [List.append_assoc]
        rw [h1]
        have h2 := @List.perm_middle Slot (⟨name, mt, isIn, sn.getD name⟩ : Slot)
          (get_slots REG m1 isIn ++
            (bucket REG className).filter (fun t => t.is_input == isIn))
          (get_slots REG m2 isIn)
        have h3 : (⟨name, mt, isIn, sn.getD name⟩ : Slot) ::
            ((get_slots REG m1 isIn ++
              (bucket REG className).filter (fun t => t.is_input == isIn)) ++
              get_slots REG m2 isIn) =
            (⟨name, mt, isIn, sn.getD name⟩ : Slot) ::
            (get_slots REG m1 isIn ++
              ((bucket REG className).filter (fun t => t.is_input == isIn) ++
                get_slots REG m2 isIn)) := by
          simp [List.append_assoc]
        rw [h3] at h2
        exact h2
      have hperm_names := hperm.map Slot.name
      rw [List.map_cons] at hperm_names
      have hnotmem : name ∉ (get_slots REG (m1 ++ className :: m2) isIn).map
          Slot.name := by
        intro hmm
        rw [List.mem_map] at hmm
        obtain ⟨t, ht, htn⟩ := hmm
        exact hfresh t ht htn
      have hnew : ((⟨name, mt, isIn, sn.getD name⟩ : Slot).name ::
          (get_slots REG (m1 ++ className :: m2) isIn).map Slot.name).Nodup := by
        rw [List.nodup_cons]
        exact ⟨hnotmem, hnames⟩
      exact hperm_names.nodup_iff.mpr hnew

/-- Witness for `c8_duplicate_slot_registration_raises`: declaring a second
input slot `input_df` on a class composed over `_UnaryTransformer` (which
already declares `input_df`) raises the `ValueError` naming the class and
the slot. -/
theorem c8_witness :
    add_slot REG0 "Foo2" ["Foo2", "_UnaryTransformer", "Stage"] "input_df"
      ⟨.dataframeDef, Option.none⟩ (some "inputDf") true =
    .error "Duplicated slot named input_df in class Foo2" :=
  (c8_duplicate_slot_registration_raises REG0 "Foo2"
    ["Foo2", "_UnaryTransformer", "Stage"] "input_df" ⟨.dataframeDef, Option.none⟩
    (some "inputDf") true).1 ⟨inputDfSlot, by decide, by decide⟩

end Cebes
